import Mathlib

/-!
Shallow embedding of the macro-tracker core (food logging pipeline,
nutrition cache, daily summary materialization, history queries).

Modelling conventions:
* Macro values are rationals (`ℚ`); the Python floats here only ever hold
  small decimal values and the claims are exact-arithmetic statements.
* Timestamps are naturals (`ℕ`), order-isomorphic to the sortable ISO-8601
  strings the code stores; the half-open pair `ts`/`te` passed around stands
  for the `[today_start, today_end)` bounds computed in the code.
* Dates (the keys of `daily_summary`) are naturals as well.
* Python strings that undergo slicing (`split`/`strip`/`lower`) are
  `List Char`; the corresponding Python built-ins are given as executable
  functions `py_split` / `py_strip` / `py_lower` below.  Strings that are
  only carried around and compared (food labels, units) stay `String`.
* The sqlite tables are association lists / lists of rows; `INSERT OR
  REPLACE` keyed on a unique column is modelled by cons-after-filter.
* Library calls external to the repository are abstract parameters:
  `json.loads` is a `parse : Str → Option RawResponse` argument and
  `datetime.strptime` a `parseDate : String → Option ℕ` argument; the
  claims quantify over them or instantiate them concretely.
-/

namespace MTracker

/-- A Python string viewed as its character sequence. -/
abbrev Str := List Char

/-- Fuel-driven worker for `py_split` (the fuel makes the recursion
structural so the kernel can evaluate it; `py_split` always supplies enough
fuel for a nonempty separator, the only way the code calls it). -/
def py_split_fuel (sep : Str) : ℕ → Str → Str → List Str
  | 0, s, acc => [acc.reverse ++ s]
  | _ + 1, [], acc => [acc.reverse]
  | n + 1, c :: rest, acc =>
    if sep.isPrefixOf (c :: rest) then
      acc.reverse :: py_split_fuel sep n ((c :: rest).drop sep.length) []
    else
      py_split_fuel sep n rest (c :: acc)

/-- Python `s.split(sep)` for a nonempty separator: cut at each leftmost
non-overlapping occurrence of `sep`, keeping empty parts. -/
def py_split (s sep : Str) : List Str :=
  py_split_fuel sep (s.length + 1) s []

/-- Python `s.strip()`: drop whitespace from both ends. -/
def py_strip (s : Str) : Str :=
  ((s.dropWhile Char.isWhitespace).reverse.dropWhile Char.isWhitespace).reverse

/-- Python `s.lower()` (on the ASCII answers the confirmation gate reads). -/
def py_lower (s : Str) : Str :=
  s.map Char.toLower

/-- Per-100g nutrition profile, the value stored in the `cache` table
(`nutrition_data` JSON object with keys calories/protein/carbs/fat). -/
structure NutritionProfile where
  calories : ℚ
  protein : ℚ
  carbs : ℚ
  fat : ℚ
deriving DecidableEq

/-- The `cache` sqlite table of `cache.py`: `food_item` is the PRIMARY KEY,
`nutrition_data` the JSON-encoded per-100g profile. -/
abbrev Cache := List (String × NutritionProfile)

/-- Function `cache.get_from_cache`: SELECT nutrition_data FROM cache WHERE food_item=?;
returns the decoded profile or None. -/
def get_from_cache (cache : Cache) (food_item : String) : Option NutritionProfile :=
  (cache.find? (fun p => p.1 = food_item)).map (fun p => p.2)

/-- Function `cache.add_to_cache`: INSERT OR REPLACE INTO cache (food_item, nutrition_data):
the row with the same primary key (if any) is replaced, all others kept. -/
def add_to_cache (cache : Cache) (food_item : String) (nutrition_data : NutritionProfile) :
    Cache :=
  (food_item, nutrition_data) :: cache.filter (fun p => p.1 ≠ food_item)

/-- One row of the `food_log` table. -/
structure LogEntry where
  id : ℕ
  timestamp : ℕ
  food_item : String
  quantity : ℚ
  quantity_unit : String
  calories : ℚ
  protein : ℚ
  carbs : ℚ
  fat : ℚ
deriving DecidableEq

/-- The `food_log` table plus its AUTOINCREMENT counter: every id ever
assigned is smaller than `nextId`. -/
structure DB where
  entries : List LogEntry
  nextId : ℕ
deriving DecidableEq

/-- One row of the `daily_summary` table (minus its surrogate id). -/
structure DailySummary where
  total_calories : ℚ
  total_protein : ℚ
  total_carbs : ℚ
  total_fat : ℚ
deriving DecidableEq

/-- The `daily_summary` table, keyed by its UNIQUE `date` column. -/
abbrev SummaryTable := List (ℕ × DailySummary)

/-- Read the `daily_summary` row for a date (the SELECT of
`get_summary_for_date` after date validation). -/
def summary_lookup (tbl : SummaryTable) (date : ℕ) : Option DailySummary :=
  (tbl.find? (fun p => p.1 = date)).map (fun p => p.2)

/-- Query filter `WHERE timestamp >= ts AND timestamp < te` over the `food_log` table. -/
def entries_in_range (entries : List LogEntry) (ts te : ℕ) : List LogEntry :=
  entries.filter (fun e => decide (ts ≤ e.timestamp) && decide (e.timestamp < te))

/-- The SELECT SUM(calories), SUM(protein), SUM(carbs), SUM(fat) query of
`get_todays_summary`: SQL `SUM` over zero rows is NULL, so the result is
`none` exactly when no entry falls in the range. -/
def summary_for_range (entries : List LogEntry) (ts te : ℕ) : Option DailySummary :=
  let es := entries_in_range entries ts te
  if es.isEmpty then none
  else some ⟨(es.map (fun e => e.calories)).sum, (es.map (fun e => e.protein)).sum,
             (es.map (fun e => e.carbs)).sum, (es.map (fun e => e.fat)).sum⟩

/-- Function `save_todays_summary`: INSERT OR REPLACE INTO daily_summary keyed by
today's date string. -/
def save_todays_summary (tbl : SummaryTable) (today : ℕ) (s : DailySummary) : SummaryTable :=
  (today, s) :: tbl.filter (fun p => p.1 ≠ today)

/-- Function `get_todays_summary` of `src/mtracker/main.py`: run the SUM query over
`[today_start, today_end)`; if the SUM is non-NULL (at least one row),
upsert it via `save_todays_summary` and display it, otherwise display
"No entries for today" and leave `daily_summary` untouched. Returns the new
table and the displayed totals (`none` = the no-entries message). -/
def get_todays_summary (db : DB) (tbl : SummaryTable) (ts te today : ℕ) :
    SummaryTable × Option DailySummary :=
  match summary_for_range db.entries ts te with
  | some s => (save_todays_summary tbl today s, some s)
  | none => (tbl, none)

/-- The confirmed computation `log_food` presents to the user and, on an
affirmative answer, hands to `save_entry`. -/
structure CalculatedNutrition where
  food_item : String
  quantity : ℚ
  quantity_unit : String
  calories : ℚ
  protein : ℚ
  carbs : ℚ
  fat : ℚ
deriving DecidableEq

/-- Function `save_entry` of `main.py`: INSERT INTO food_log one row built from the
confirmed computation, stamping it with `now` and the fresh id. -/
def save_entry (db : DB) (now : ℕ) (data : CalculatedNutrition) : DB :=
  ⟨db.entries ++ [⟨db.nextId, now, data.food_item, data.quantity, data.quantity_unit,
                  data.calories, data.protein, data.carbs, data.fat⟩],
   db.nextId + 1⟩

/-- The JSON object `json.loads` yields from the collaborator reply,
restricted to the keys the code reads; a missing key is `none`
(dict access on it raises KeyError). -/
structure RawResponse where
  food_item : Option String
  quantity : Option ℚ
  quantity_unit : Option String
  calories_per_100g : Option ℚ
  protein_per_100g : Option ℚ
  carbs_per_100g : Option ℚ
  fat_per_100g : Option ℚ
deriving DecidableEq

/-- The characters of the tagged fence opener the code looks for. -/
def fence_json_tok : Str := "```json".data

/-- The characters of a bare markdown fence. -/
def fence_tok : Str := "```".data

/-- The markdown-fence cleanup of `log_food`:
`if '```json' in response_str: response_str.split('```json')[1].split('```')[0].strip()`
(the substring test `'```json' in s` holds iff the split has ≥ 2 parts). -/
def clean_response (s : Str) : Str :=
  if (py_split s fence_json_tok).length > 1 then
    py_strip ((py_split ((py_split s fence_json_tok).getD 1 []) fence_tok).getD 0 [])
  else s

/-- The resolution stage of `log_food`: clean the reply, parse it, read the
`food_item`/`quantity`/`quantity_unit` keys, consult the cache; on a hit use
the cached profile (the draft's own per-100g estimates are never read), on a
miss read the four per-100g keys, use them as the profile and store them.
`none` is the `except` branch (any KeyError / JSON error aborts with an
error message and no further effect; in particular a KeyError on a per-100g
key fires before `add_to_cache`, so the cache is untouched then). Returns
the cache after the step, the carried-through item/quantity/unit, and the
chosen per-100g profile. -/
def resolve_food (parse : Str → Option RawResponse) (reply : Str) (cache : Cache) :
    Option (Cache × String × ℚ × String × NutritionProfile) :=
  match parse (clean_response reply) with
  | none => none
  | some rd =>
    match rd.food_item, rd.quantity, rd.quantity_unit with
    | some fi, some q, some qu =>
      match get_from_cache cache fi with
      | some p => some (cache, fi, q, qu, p)
      | none =>
        match rd.calories_per_100g, rd.protein_per_100g, rd.carbs_per_100g, rd.fat_per_100g with
        | some c, some pr, some cb, some ft =>
          some (add_to_cache cache fi ⟨c, pr, cb, ft⟩, fi, q, qu, ⟨c, pr, cb, ft⟩)
        | _, _, _, _ => none
    | _, _, _ => none

/-- The scaling step of `log_food`: `multiplier = quantity / 100.0`, each
macro of the presented computation is the per-100g value times the
multiplier; item, quantity and unit are carried through unchanged. -/
def scale (food_item : String) (quantity : ℚ) (quantity_unit : String)
    (p : NutritionProfile) : CalculatedNutrition :=
  ⟨food_item, quantity, quantity_unit,
   p.calories * (quantity / 100), p.protein * (quantity / 100),
   p.carbs * (quantity / 100), p.fat * (quantity / 100)⟩

/-- Outcome of one `log_food` invocation, as observable at its prints. -/
inductive LogFoodOutcome
  | extractionError
  | saved (c : CalculatedNutrition)
  | discarded (c : CalculatedNutrition)
deriving DecidableEq

/-- Function `log_food`: resolution, scaling, then the confirmation gate
`confirm = input(...).lower()` / `if confirm == "y"`; only the affirmative
answer reaches `save_entry`, any other answer discards the computation (the
cache effect of the resolution stage stays either way). -/
def log_food (parse : Str → Option RawResponse) (reply : Str) (cache : Cache)
    (db : DB) (now : ℕ) (confirm : Str) : Cache × DB × LogFoodOutcome :=
  match resolve_food parse reply cache with
  | none => (cache, db, .extractionError)
  | some (cache1, fi, q, qu, p) =>
    let calculated := scale fi q qu p
    if py_lower confirm = ['y'] then
      (cache1, save_entry db now calculated, .saved calculated)
    else
      (cache1, db, .discarded calculated)

/-- Query `ORDER BY id DESC LIMIT 1`: the row with the largest id, `none` on an
empty result set. -/
def max_id_entry : List LogEntry → Option LogEntry
  | [] => none
  | e :: rest =>
    match max_id_entry rest with
    | none => some e
    | some m => if m.id ≤ e.id then some e else some m

/-- Function `remove_last_entry`: select the highest-id `food_log` row in today's
range; if found, DELETE it, then rerun `get_todays_summary` (which upserts
the recomputed totals, or leaves the table alone when the day became empty);
if none found, print "No entries for today to remove" and change nothing.
Returns the new db, the new summary table, and the identity of the removed
row (`none` = the nothing-to-remove message). -/
def remove_last_entry (db : DB) (tbl : SummaryTable) (ts te today : ℕ) :
    DB × SummaryTable × Option (ℕ × String × ℚ × String) :=
  match max_id_entry (entries_in_range db.entries ts te) with
  | some e =>
    let db1 : DB := ⟨db.entries.filter (fun x => x.id ≠ e.id), db.nextId⟩
    (db1, (get_todays_summary db1 tbl ts te today).1,
     some (e.id, e.food_item, e.quantity, e.quantity_unit))
  | none => (db, tbl, none)

/-- Result of a date-keyed read: the date string failed validation, or the
query ran and found rows, or it ran and found nothing. -/
inductive DateQueryResult (α : Type)
  | invalidDate
  | found (v : α)
  | noData
deriving DecidableEq

/-- Function `history.get_meals_for_date`: validate the date string with
`strptime(date_str, "%Y-%m-%d")` (the abstract `parseDate`); on failure
print the invalid-format message and return with no query run; otherwise
select the rows of that day (`dayRange` maps the parsed date to the
`[start_date, end_date)` pair the code builds from `time.min`/`time.max`). -/
def get_meals_for_date (parseDate : String → Option ℕ) (dayRange : ℕ → ℕ × ℕ)
    (db : DB) (date_str : String) : DateQueryResult (List LogEntry) :=
  match parseDate date_str with
  | none => .invalidDate
  | some d =>
    let r := entries_in_range db.entries (dayRange d).1 (dayRange d).2
    if r.isEmpty then .noData else .found r

/-- Function `get_summary_for_date`: validate the date string; on failure print the
invalid-format message and return with no query run; otherwise read the
persisted `daily_summary` row for that date (a stored snapshot). -/
def get_summary_for_date (parseDate : String → Option ℕ) (tbl : SummaryTable)
    (date_str : String) : DateQueryResult DailySummary :=
  match parseDate date_str with
  | none => .invalidDate
  | some d =>
    match summary_lookup tbl d with
    | some s => .found s
    | none => .noData

/-- The failure condition of the resolution stage: the cleaned reply does
not parse as JSON, or a key the taken code path reads is absent
(`food_item`/`quantity`/`quantity_unit` always; the four per-100g keys only
when the cache misses on the food label). -/
def missing_required_key (rd : RawResponse) (cache : Cache) : Prop :=
  rd.food_item = none ∨ rd.quantity = none ∨ rd.quantity_unit = none ∨
  (∃ fi, rd.food_item = some fi ∧ get_from_cache cache fi = none ∧
    (rd.calories_per_100g = none ∨ rd.protein_per_100g = none ∨
     rd.carbs_per_100g = none ∨ rd.fat_per_100g = none))

/-! ### Concrete instances used by the witnesses and counterexamples -/

/-- The JSON text of the worked example of the prompt (the "banana cake"
scenario), as the collaborator would emit it. -/
def bananaBody : Str :=
  ("\x7b\"food_item\": \"banana cake\", \"quantity\": 175, \"quantity_unit\": \"g\", \"calories_per_100g\": 300, \"protein_per_100g\": 4, \"carbs_per_100g\": 40, \"fat_per_100g\": 14\x7d").data

/-- What `json.loads` yields on `bananaBody`. -/
def bananaRaw : RawResponse :=
  ⟨some "banana cake", some 175, some "g", some 300, some 4, some 40, some 14⟩

/-- A concrete `json.loads` oracle: accepts exactly the banana-cake JSON
text (it genuinely fails on any text still carrying markdown fences). -/
def bananaParse : Str → Option RawResponse :=
  fun s => if s = bananaBody then some bananaRaw else none

/-- The banana-cake reply wrapped in a ```json-tagged fenced code block. -/
def bananaReply : Str := fence_json_tok ++ ('\n' :: bananaBody) ++ ('\n' :: fence_tok)

/-- The same reply wrapped in a bare (untagged) fenced code block. -/
def plainFenceReply : Str := fence_tok ++ ('\n' :: bananaBody) ++ ('\n' :: fence_tok)

/-- The per-100g profile of the banana-cake scenario. -/
def bananaProfile : NutritionProfile := ⟨300, 4, 40, 14⟩

/-- A second draft for the same label with different per-100g guesses. -/
def secondRaw : RawResponse :=
  ⟨some "banana cake", some 50, some "g", some 999, some 9, some 9, some 9⟩

/-- A `json.loads` oracle that always yields the second draft. -/
def secondParse : Str → Option RawResponse := fun _ => some secondRaw

/-- A `json.loads` oracle that always yields the banana-cake draft. -/
def bananaConstParse : Str → Option RawResponse := fun _ => some bananaRaw

/-- A sample confirmed computation. -/
def sampleCalc : CalculatedNutrition := ⟨"apple", 100, "g", 52, 1, 14, 1⟩

/-- A sample `food_log` row (id 0, timestamp 5). -/
def sampleEntry : LogEntry := ⟨0, 5, "apple", 100, "g", 52, 1, 14, 1⟩

/-- A stale `daily_summary` row materialized earlier in the day. -/
def staleSummary : DailySummary := ⟨100, 80, 60, 40⟩

/-- A `strptime` oracle for a date string that fails `%Y-%m-%d` validation. -/
def nullDateParse : String → Option ℕ := fun _ => none

/-- A sample day-range map for the date-keyed queries. -/
def sampleDayRange : ℕ → ℕ × ℕ := fun d => (10 * d, 10 * d + 10)

end MTracker

namespace MTracker

set_option maxRecDepth 100000

/-! ### Helper lemmas -/

/-- Storing a profile and looking the same label up again yields it. -/
theorem get_from_cache_add (cache : Cache) (fi : String) (p : NutritionProfile) :
    get_from_cache (add_to_cache cache fi p) fi = some p := by
  simp [get_from_cache, add_to_cache]

/-- A successful parse with the three always-read keys present and a cache
miss with all per-100g keys present resolves to the stored draft profile. -/
theorem resolve_food_miss (parse : Str → Option RawResponse) (reply : Str)
    (cache : Cache) (rd : RawResponse) (fi : String) (q : ℚ) (qu : String)
    (c pr cb ft : ℚ)
    (hp : parse (clean_response reply) = some rd)
    (hfi : rd.food_item = some fi) (hq : rd.quantity = some q)
    (hqu : rd.quantity_unit = some qu)
    (hc : rd.calories_per_100g = some c) (hpr : rd.protein_per_100g = some pr)
    (hcb : rd.carbs_per_100g = some cb) (hft : rd.fat_per_100g = some ft)
    (hmiss : get_from_cache cache fi = none) :
    resolve_food parse reply cache =
      some (add_to_cache cache fi ⟨c, pr, cb, ft⟩, fi, q, qu, ⟨c, pr, cb, ft⟩) := by
  simp [resolve_food, hp, hfi, hq, hqu, hmiss, hc, hpr, hcb, hft]

/-- A successful parse with the three always-read keys present and a cache
hit resolves to the cached profile with the cache untouched. -/
theorem resolve_food_hit (parse : Str → Option RawResponse) (reply : Str)
    (cache : Cache) (rd : RawResponse) (fi : String) (q : ℚ) (qu : String)
    (p : NutritionProfile)
    (hp : parse (clean_response reply) = some rd)
    (hfi : rd.food_item = some fi) (hq : rd.quantity = some q)
    (hqu : rd.quantity_unit = some qu)
    (hhit : get_from_cache cache fi = some p) :
    resolve_food parse reply cache = some (cache, fi, q, qu, p) := by
  simp [resolve_food, hp, hfi, hq, hqu, hhit]

/-! ### Claim theorems -/

/-- C1: for every resolved entry, each scaled macro field equals the
per-100g profile value times quantity/100, and on an affirmative
confirmation exactly that scaled computation is saved. -/
theorem c1_scaling_correct (parse : Str → Option RawResponse) (reply : Str)
    (cache cache1 : Cache) (db : DB) (now : ℕ) (confirm : Str)
    (fi : String) (q : ℚ) (qu : String) (p : NutritionProfile)
    (h : resolve_food parse reply cache = some (cache1, fi, q, qu, p))
    (hy : py_lower confirm = ['y']) :
    log_food parse reply cache db now confirm =
      (cache1, save_entry db now (scale fi q qu p), .saved (scale fi q qu p)) ∧
    (scale fi q qu p).calories = p.calories * (q / 100) ∧
    (scale fi q qu p).protein = p.protein * (q / 100) ∧
    (scale fi q qu p).carbs = p.carbs * (q / 100) ∧
    (scale fi q qu p).fat = p.fat * (q / 100) := by
  refine ⟨?_, rfl, rfl, rfl, rfl⟩
  simp [log_food, h, hy]

/-- Witness for C1: the "175g of banana cake" scenario on a cache miss;
after the affirmative confirmation the stored log row has calories 525,
protein 7, carbs 70, fat 24.5 and the cache holds the unscaled per-100g
values. -/
theorem c1_scaling_correct_witness :
    resolve_food bananaParse bananaReply [] =
      some (add_to_cache [] "banana cake" bananaProfile, "banana cake", 175, "g",
        bananaProfile) ∧
    log_food bananaParse bananaReply [] ⟨[], 0⟩ 5 ['y'] =
      (add_to_cache [] "banana cake" bananaProfile,
       save_entry ⟨[], 0⟩ 5 (scale "banana cake" 175 "g" bananaProfile),
       .saved (scale "banana cake" 175 "g" bananaProfile)) ∧
    scale "banana cake" 175 "g" bananaProfile =
      ⟨"banana cake", 175, "g", 525, 7, 70, 49 / 2⟩ ∧
    add_to_cache [] "banana cake" bananaProfile = [("banana cake", ⟨300, 4, 40, 14⟩)] ∧
    (save_entry ⟨[], 0⟩ 5 (scale "banana cake" 175 "g" bananaProfile)).entries =
      [⟨0, 5, "banana cake", 175, "g", 525, 7, 70, 49 / 2⟩] := by
  have hcl : clean_response bananaReply = bananaBody := by decide
  have h : resolve_food bananaParse bananaReply [] =
      some (add_to_cache [] "banana cake" bananaProfile, "banana cake", 175, "g",
        bananaProfile) := by
    simp [resolve_food, hcl, bananaParse, bananaRaw, get_from_cache, bananaProfile]
  have hsc : scale "banana cake" 175 "g" bananaProfile =
      ⟨"banana cake", 175, "g", 525, 7, 70, 49 / 2⟩ := by
    simp only [scale, bananaProfile, CalculatedNutrition.mk.injEq]
    norm_num
  refine ⟨h, ?_, hsc, by simp [add_to_cache, bananaProfile], by simp [save_entry, hsc]⟩
  exact (c1_scaling_correct bananaParse bananaReply []
    (add_to_cache [] "banana cake" bananaProfile) ⟨[], 0⟩ 5 ['y']
    "banana cake" 175 "g" bananaProfile h (by decide)).1

/-- C2: on a cache miss the draft's per-100g estimates become the stored
profile; a later resolution of the same label (after that cache write) uses
the cached profile and discards the second draft's own estimates, leaving
the cache unchanged. -/
theorem c2_idempotent_cache_fill
    (parse1 parse2 : Str → Option RawResponse) (reply1 reply2 : Str) (cache : Cache)
    (rd1 rd2 : RawResponse) (fi : String) (q1 q2 : ℚ) (qu1 qu2 : String)
    (c1 pr1 cb1 ft1 : ℚ)
    (h1 : parse1 (clean_response reply1) = some rd1)
    (hfi1 : rd1.food_item = some fi) (hq1 : rd1.quantity = some q1)
    (hqu1 : rd1.quantity_unit = some qu1)
    (hc1 : rd1.calories_per_100g = some c1) (hpr1 : rd1.protein_per_100g = some pr1)
    (hcb1 : rd1.carbs_per_100g = some cb1) (hft1 : rd1.fat_per_100g = some ft1)
    (hmiss : get_from_cache cache fi = none)
    (h2 : parse2 (clean_response reply2) = some rd2)
    (hfi2 : rd2.food_item = some fi) (hq2 : rd2.quantity = some q2)
    (hqu2 : rd2.quantity_unit = some qu2) :
    resolve_food parse1 reply1 cache =
      some (add_to_cache cache fi ⟨c1, pr1, cb1, ft1⟩, fi, q1, qu1, ⟨c1, pr1, cb1, ft1⟩) ∧
    get_from_cache (add_to_cache cache fi ⟨c1, pr1, cb1, ft1⟩) fi =
      some ⟨c1, pr1, cb1, ft1⟩ ∧
    resolve_food parse2 reply2 (add_to_cache cache fi ⟨c1, pr1, cb1, ft1⟩) =
      some (add_to_cache cache fi ⟨c1, pr1, cb1, ft1⟩, fi, q2, qu2, ⟨c1, pr1, cb1, ft1⟩) :=
  ⟨resolve_food_miss parse1 reply1 cache rd1 fi q1 qu1 c1 pr1 cb1 ft1
      h1 hfi1 hq1 hqu1 hc1 hpr1 hcb1 hft1 hmiss,
   get_from_cache_add cache fi _,
   resolve_food_hit parse2 reply2 _ rd2 fi q2 qu2 _
      h2 hfi2 hq2 hqu2 (get_from_cache_add cache fi _)⟩

/-- Witness for C2: the banana-cake draft fills the cache; a second draft
for the same label guessing 999/9/9/9 per 100g still resolves to the cached
300/4/40/14 profile. -/
theorem c2_idempotent_cache_fill_witness :
    resolve_food bananaConstParse [] [] =
      some (add_to_cache [] "banana cake" ⟨300, 4, 40, 14⟩, "banana cake", 175, "g",
        ⟨300, 4, 40, 14⟩) ∧
    get_from_cache (add_to_cache [] "banana cake" ⟨300, 4, 40, 14⟩) "banana cake" =
      some ⟨300, 4, 40, 14⟩ ∧
    resolve_food secondParse [] (add_to_cache [] "banana cake" ⟨300, 4, 40, 14⟩) =
      some (add_to_cache [] "banana cake" ⟨300, 4, 40, 14⟩, "banana cake", 50, "g",
        ⟨300, 4, 40, 14⟩) :=
  c2_idempotent_cache_fill bananaConstParse secondParse [] [] [] bananaRaw secondRaw
    "banana cake" 175 50 "g" "g" 300 4 40 14
    rfl rfl rfl rfl rfl rfl rfl rfl rfl rfl rfl rfl rfl

/-- C3: a non-affirmative confirmation leaves the log store untouched; an
affirmative one appends exactly one row whose item, quantity, unit and
scaled macros are those of the presented computation. -/
theorem c3_confirmation_gate (parse : Str → Option RawResponse) (reply : Str)
    (cache cache1 : Cache) (db : DB) (now : ℕ) (confirm : Str)
    (fi : String) (q : ℚ) (qu : String) (p : NutritionProfile)
    (h : resolve_food parse reply cache = some (cache1, fi, q, qu, p)) :
    (py_lower confirm ≠ ['y'] →
      (log_food parse reply cache db now confirm).2.1 = db ∧
      (log_food parse reply cache db now confirm).2.2 =
        .discarded (scale fi q qu p)) ∧
    (py_lower confirm = ['y'] →
      ((log_food parse reply cache db now confirm).2.1).entries =
        db.entries ++ [⟨db.nextId, now, fi, q, qu,
          (scale fi q qu p).calories, (scale fi q qu p).protein,
          (scale fi q qu p).carbs, (scale fi q qu p).fat⟩] ∧
      (log_food parse reply cache db now confirm).2.2 = .saved (scale fi q qu p)) := by
  constructor
  · intro hne
    simp [log_food, h, hne]
  · intro hy
    refine ⟨?_, by simp [log_food, h, hy]⟩
    simp [log_food, h, hy, save_entry, scale]

/-- Witness for C3: with the banana-cake resolution, answering "n" leaves
the log store empty and answering "y" appends the one scaled row. -/
theorem c3_confirmation_gate_witness :
    ((log_food bananaConstParse [] [] ⟨[], 0⟩ 3 ['n']).2.1 = (⟨[], 0⟩ : DB) ∧
     (log_food bananaConstParse [] [] ⟨[], 0⟩ 3 ['n']).2.2 =
       .discarded (scale "banana cake" 175 "g" ⟨300, 4, 40, 14⟩)) ∧
    (((log_food bananaConstParse [] [] ⟨[], 0⟩ 3 ['y']).2.1).entries =
       [] ++ [⟨0, 3, "banana cake", 175, "g",
         (scale "banana cake" 175 "g" ⟨300, 4, 40, 14⟩).calories,
         (scale "banana cake" 175 "g" ⟨300, 4, 40, 14⟩).protein,
         (scale "banana cake" 175 "g" ⟨300, 4, 40, 14⟩).carbs,
         (scale "banana cake" 175 "g" ⟨300, 4, 40, 14⟩).fat⟩] ∧
     (log_food bananaConstParse [] [] ⟨[], 0⟩ 3 ['y']).2.2 =
       .saved (scale "banana cake" 175 "g" ⟨300, 4, 40, 14⟩)) :=
  ⟨(c3_confirmation_gate bananaConstParse [] []
      (add_to_cache [] "banana cake" ⟨300, 4, 40, 14⟩) ⟨[], 0⟩ 3 ['n']
      "banana cake" 175 "g" ⟨300, 4, 40, 14⟩ rfl).1 (by decide),
   (c3_confirmation_gate bananaConstParse [] []
      (add_to_cache [] "banana cake" ⟨300, 4, 40, 14⟩) ⟨[], 0⟩ 3 ['y']
      "banana cake" 175 "g" ⟨300, 4, 40, 14⟩ rfl).2 (by decide)⟩

/-- C4: a cache miss writes the draft profile into the cache during
resolution, and a subsequent rejected confirmation leaves that cache write
in place (the food label still maps to the draft's per-100g profile) while
the log store stays unchanged. -/
theorem c4_cache_write_survives_rejection (parse : Str → Option RawResponse)
    (reply : Str) (cache : Cache) (db : DB) (now : ℕ) (confirm : Str)
    (rd : RawResponse) (fi : String) (q : ℚ) (qu : String) (c pr cb ft : ℚ)
    (hp : parse (clean_response reply) = some rd)
    (hfi : rd.food_item = some fi) (hq : rd.quantity = some q)
    (hqu : rd.quantity_unit = some qu)
    (hc : rd.calories_per_100g = some c) (hpr : rd.protein_per_100g = some pr)
    (hcb : rd.carbs_per_100g = some cb) (hft : rd.fat_per_100g = some ft)
    (hmiss : get_from_cache cache fi = none)
    (hrej : py_lower confirm ≠ ['y']) :
    (log_food parse reply cache db now confirm).1 =
      add_to_cache cache fi ⟨c, pr, cb, ft⟩ ∧
    get_from_cache (log_food parse reply cache db now confirm).1 fi =
      some ⟨c, pr, cb, ft⟩ ∧
    (log_food parse reply cache db now confirm).2.1 = db := by
  have hres := resolve_food_miss parse reply cache rd fi q qu c pr cb ft
    hp hfi hq hqu hc hpr hcb hft hmiss
  refine ⟨?_, ?_, ?_⟩ <;> simp [log_food, hres, hrej, get_from_cache_add]

/-- Witness for C4: after a miss-then-reject run the cache still holds the
draft profile for "banana cake" and the log store is unchanged. -/
theorem c4_cache_write_survives_rejection_witness :
    (log_food bananaConstParse [] [] ⟨[], 0⟩ 3 ['n']).1 =
      add_to_cache [] "banana cake" ⟨300, 4, 40, 14⟩ ∧
    get_from_cache (log_food bananaConstParse [] [] ⟨[], 0⟩ 3 ['n']).1 "banana cake" =
      some ⟨300, 4, 40, 14⟩ ∧
    (log_food bananaConstParse [] [] ⟨[], 0⟩ 3 ['n']).2.1 = (⟨[], 0⟩ : DB) :=
  c4_cache_write_survives_rejection bananaConstParse [] [] ⟨[], 0⟩ 3 ['n']
    bananaRaw "banana cake" 175 "g" 300 4 40 14
    rfl rfl rfl rfl rfl rfl rfl rfl rfl (by decide)

end MTracker

namespace MTracker

set_option maxRecDepth 100000

/-- Upserting today's summary and reading it back for today yields it. -/
theorem summary_lookup_save (tbl : SummaryTable) (today : ℕ) (s : DailySummary) :
    summary_lookup (save_todays_summary tbl today s) today = some s := by
  simp [summary_lookup, save_todays_summary]

/-- The range query distributes over appended tables. -/
theorem entries_in_range_append (xs ys : List LogEntry) (ts te : ℕ) :
    entries_in_range (xs ++ ys) ts te =
      entries_in_range xs ts te ++ entries_in_range ys ts te := by
  simp [entries_in_range]

/-- A single row inside the range survives the range query. -/
theorem entries_in_range_single_in (e : LogEntry) (ts te : ℕ)
    (h1 : ts ≤ e.timestamp) (h2 : e.timestamp < te) :
    entries_in_range [e] ts te = [e] := by
  simp [entries_in_range, h1, h2]

/-- Query `ORDER BY id DESC LIMIT 1` returns a strictly-larger-id row appended at
the end. -/
theorem max_id_entry_append (l : List LogEntry) (e : LogEntry)
    (h : ∀ x ∈ l, x.id < e.id) : max_id_entry (l ++ [e]) = some e := by
  induction l with
  | nil => rfl
  | cons a t ih =>
    have ha : a.id < e.id := h a (List.mem_cons_self a t)
    have ih2 : max_id_entry (t ++ [e]) = some e :=
      ih (fun x hx => h x (List.mem_cons_of_mem a hx))
    rw [List.cons_append]
    simp only [max_id_entry, ih2]
    rw [if_neg (by omega)]

/-- Deleting an id that no row of the table carries changes nothing. -/
theorem filter_id_ne (l : List LogEntry) (n : ℕ) (h : ∀ x ∈ l, x.id < n) :
    l.filter (fun x => x.id ≠ n) = l := by
  apply List.filter_eq_self.mpr
  intro a ha
  have := h a ha
  simp only [ne_eq, decide_eq_true_eq]
  omega

/-- Appending one in-range row with a fresh id and then running
`remove_last_entry` deletes exactly that row and reruns the summary on the
rest. -/
theorem remove_after_append (db : DB) (tbl : SummaryTable) (ts te today : ℕ)
    (e : LogEntry) (nid : ℕ)
    (h1 : ts ≤ e.timestamp) (h2 : e.timestamp < te)
    (hid : ∀ x ∈ db.entries, x.id < e.id) :
    remove_last_entry ⟨db.entries ++ [e], nid⟩ tbl ts te today =
      (⟨db.entries, nid⟩,
       (get_todays_summary ⟨db.entries, nid⟩ tbl ts te today).1,
       some (e.id, e.food_item, e.quantity, e.quantity_unit)) := by
  have hrange : entries_in_range (db.entries ++ [e]) ts te =
      entries_in_range db.entries ts te ++ [e] := by
    rw [entries_in_range_append, entries_in_range_single_in e ts te h1 h2]
  have hmax : max_id_entry (entries_in_range (db.entries ++ [e]) ts te) = some e := by
    rw [hrange]
    exact max_id_entry_append _ e (fun x hx => hid x (List.mem_of_mem_filter hx))
  have hfil : (db.entries ++ [e]).filter (fun x => x.id ≠ e.id) = db.entries := by
    rw [List.filter_append, filter_id_ne db.entries e.id hid]
    simp
  have hfil2 : List.filter (fun x => !decide (x.id = e.id)) db.entries = db.entries := by
    apply List.filter_eq_self.mpr
    intro a ha
    have := hid a ha
    simp only [Bool.not_eq_true', decide_eq_false_iff_not]
    omega
  simp [remove_last_entry, hmax, hfil]
  exact ⟨fun a ha => Nat.ne_of_lt (hid a ha), by rw [hfil2]⟩

/-- C5 (amended): when at least one log entry falls on today, running the
today's-summary request and then reading the persisted summary for today
returns exactly the sums of today's entries' macro fields. -/
theorem c5_summary_consistency (db : DB) (tbl : SummaryTable) (ts te today : ℕ)
    (h : entries_in_range db.entries ts te ≠ []) :
    summary_lookup ((get_todays_summary db tbl ts te today).1) today =
      some ⟨((entries_in_range db.entries ts te).map (fun e => e.calories)).sum,
            ((entries_in_range db.entries ts te).map (fun e => e.protein)).sum,
            ((entries_in_range db.entries ts te).map (fun e => e.carbs)).sum,
            ((entries_in_range db.entries ts te).map (fun e => e.fat)).sum⟩ := by
  have h2 : (entries_in_range db.entries ts te).isEmpty = false := by
    cases hE : entries_in_range db.entries ts te with
    | nil => exact absurd hE h
    | cons a t => rfl
  have h3 : summary_for_range db.entries ts te =
      some ⟨((entries_in_range db.entries ts te).map (fun e => e.calories)).sum,
            ((entries_in_range db.entries ts te).map (fun e => e.protein)).sum,
            ((entries_in_range db.entries ts te).map (fun e => e.carbs)).sum,
            ((entries_in_range db.entries ts te).map (fun e => e.fat)).sum⟩ := by
    simp [summary_for_range, h2]
  simp [get_todays_summary, h3, summary_lookup_save]

/-- Witness for C5: one entry logged today; after the summary request the
persisted row for today holds exactly that entry's macros. -/
theorem c5_summary_consistency_witness :
    summary_lookup ((get_todays_summary ⟨[sampleEntry], 1⟩ [] 0 10 7).1) 7 =
      some ⟨((entries_in_range [sampleEntry] 0 10).map (fun e => e.calories)).sum,
            ((entries_in_range [sampleEntry] 0 10).map (fun e => e.protein)).sum,
            ((entries_in_range [sampleEntry] 0 10).map (fun e => e.carbs)).sum,
            ((entries_in_range [sampleEntry] 0 10).map (fun e => e.fat)).sum⟩ :=
  c5_summary_consistency ⟨[sampleEntry], 1⟩ [] 0 10 7 (by decide)

/-- Counterexample for C5 as stated: with an empty log and a stale
summary row for today, the today's-summary request writes nothing and the
per-date read still returns the stale totals, not the (empty) sum of
today's entries. -/
theorem c5_counterexample :
    ¬ (summary_lookup ((get_todays_summary ⟨[], 0⟩ [(7, staleSummary)] 0 10 7).1) 7 =
        some ⟨((entries_in_range (DB.mk [] 0).entries 0 10).map (fun e => e.calories)).sum,
              ((entries_in_range (DB.mk [] 0).entries 0 10).map (fun e => e.protein)).sum,
              ((entries_in_range (DB.mk [] 0).entries 0 10).map (fun e => e.carbs)).sum,
              ((entries_in_range (DB.mk [] 0).entries 0 10).map (fun e => e.fat)).sum⟩) := by
  intro hcl
  have hlhs : summary_lookup ((get_todays_summary ⟨[], 0⟩ [(7, staleSummary)] 0 10 7).1) 7 =
      some staleSummary := rfl
  rw [hlhs] at hcl
  have hsum : ((entries_in_range (DB.mk [] 0).entries 0 10).map
      (fun e => e.calories)).sum = 0 := rfl
  simp only [Option.some.injEq, staleSummary] at hcl
  have h100 : (100 : ℚ) = ((entries_in_range (DB.mk [] 0).entries 0 10).map
      (fun e => e.calories)).sum := congrArg DailySummary.total_calories hcl
  rw [hsum] at h100
  norm_num at h100

/-- C6: appending an entry and removing the last entry for today deletes
exactly that entry (the highest-id row in today's range) from the log, and
a second removal on a day left with no entries reports nothing to remove. -/
theorem c6_removal_round_trip (db : DB) (tbl : SummaryTable) (ts te today now : ℕ)
    (data : CalculatedNutrition)
    (hts : ts ≤ now) (hte : now < te)
    (hid : ∀ x ∈ db.entries, x.id < db.nextId) :
    (remove_last_entry (save_entry db now data) tbl ts te today).2.2 =
      some (db.nextId, data.food_item, data.quantity, data.quantity_unit) ∧
    ((remove_last_entry (save_entry db now data) tbl ts te today).1).entries =
      db.entries ∧
    (∀ x ∈ entries_in_range
        ((remove_last_entry (save_entry db now data) tbl ts te today).1).entries ts te,
      x.id ≠ db.nextId) ∧
    (entries_in_range db.entries ts te = [] →
      (remove_last_entry (remove_last_entry (save_entry db now data) tbl ts te today).1
        ((remove_last_entry (save_entry db now data) tbl ts te today).2.1)
        ts te today).2.2 = none) := by
  have hrm := remove_after_append db tbl ts te today
    ⟨db.nextId, now, data.food_item, data.quantity, data.quantity_unit,
     data.calories, data.protein, data.carbs, data.fat⟩ (db.nextId + 1) hts hte hid
  have hsave : save_entry db now data =
      (⟨db.entries ++ [⟨db.nextId, now, data.food_item, data.quantity, data.quantity_unit,
        data.calories, data.protein, data.carbs, data.fat⟩], db.nextId + 1⟩ : DB) := rfl
  rw [hsave, hrm]
  refine ⟨rfl, rfl, ?_, ?_⟩
  · intro x hx
    have := hid x (List.mem_of_mem_filter hx)
    omega
  · intro hempty
    simp [remove_last_entry, hempty, max_id_entry]

/-- Witness for C6: on an empty database, appending one entry and removing
it leaves the log empty, and a second removal reports nothing to remove. -/
theorem c6_removal_round_trip_witness :
    (remove_last_entry (save_entry ⟨[], 0⟩ 5 sampleCalc) [] 0 10 7).2.2 =
      some (0, "apple", 100, "g") ∧
    ((remove_last_entry (save_entry ⟨[], 0⟩ 5 sampleCalc) [] 0 10 7).1).entries = [] ∧
    (remove_last_entry (remove_last_entry (save_entry ⟨[], 0⟩ 5 sampleCalc) [] 0 10 7).1
      ((remove_last_entry (save_entry ⟨[], 0⟩ 5 sampleCalc) [] 0 10 7).2.1)
      0 10 7).2.2 = none :=
  ⟨(c6_removal_round_trip ⟨[], 0⟩ [] 0 10 7 5 sampleCalc (by decide) (by decide)
      (by intro x hx; simp at hx)).1,
   (c6_removal_round_trip ⟨[], 0⟩ [] 0 10 7 5 sampleCalc (by decide) (by decide)
      (by intro x hx; simp at hx)).2.1,
   (c6_removal_round_trip ⟨[], 0⟩ [] 0 10 7 5 sampleCalc (by decide) (by decide)
      (by intro x hx; simp at hx)).2.2.2 rfl⟩

/-- C7: a range holding zero log entries yields the distinguished empty
summary (`none`), never a zero-valued tuple, and the today's-summary
request then displays the no-entries message. -/
theorem c7_empty_day_distinction (db : DB) (tbl : SummaryTable) (ts te today : ℕ)
    (h : entries_in_range db.entries ts te = []) :
    summary_for_range db.entries ts te = none ∧
    summary_for_range db.entries ts te ≠ some ⟨0, 0, 0, 0⟩ ∧
    (get_todays_summary db tbl ts te today).2 = none := by
  have h2 : summary_for_range db.entries ts te = none := by
    simp [summary_for_range, h]
  exact ⟨h2, by simp [h2], by simp [get_todays_summary, h2]⟩

/-- Witness for C7: a log whose single entry lies outside the queried
range. -/
theorem c7_empty_day_distinction_witness :
    summary_for_range [sampleEntry] 10 20 = none ∧
    summary_for_range [sampleEntry] 10 20 ≠ some ⟨0, 0, 0, 0⟩ ∧
    (get_todays_summary ⟨[sampleEntry], 1⟩ [] 10 20 7).2 = none :=
  c7_empty_day_distinction ⟨[sampleEntry], 1⟩ [] 10 20 7 (by decide)

/-- C9: a date string that fails `%Y-%m-%d` validation makes both
date-keyed reads return the validation failure immediately, independently
of the stored data (no query executed, no state change). -/
theorem c9_validation_aborts (parseDate : String → Option ℕ) (date_str : String)
    (h : parseDate date_str = none) :
    ∀ (dayRange : ℕ → ℕ × ℕ) (db db2 : DB) (tbl tbl2 : SummaryTable),
      get_meals_for_date parseDate dayRange db date_str = .invalidDate ∧
      get_summary_for_date parseDate tbl date_str = .invalidDate ∧
      get_meals_for_date parseDate dayRange db date_str =
        get_meals_for_date parseDate dayRange db2 date_str ∧
      get_summary_for_date parseDate tbl date_str =
        get_summary_for_date parseDate tbl2 date_str := by
  intro dayRange db db2 tbl tbl2
  simp [get_meals_for_date, get_summary_for_date, h]

/-- Witness for C9: an unparsable date string aborts both reads on sample
stores of different contents. -/
theorem c9_validation_aborts_witness :
    get_meals_for_date nullDateParse sampleDayRange ⟨[], 0⟩ "2024-13-AB" = .invalidDate ∧
    get_summary_for_date nullDateParse [] "2024-13-AB" = .invalidDate ∧
    get_meals_for_date nullDateParse sampleDayRange ⟨[], 0⟩ "2024-13-AB" =
      get_meals_for_date nullDateParse sampleDayRange ⟨[sampleEntry], 1⟩ "2024-13-AB" ∧
    get_summary_for_date nullDateParse [] "2024-13-AB" =
      get_summary_for_date nullDateParse [(7, staleSummary)] "2024-13-AB" :=
  c9_validation_aborts nullDateParse "2024-13-AB" rfl sampleDayRange
    ⟨[], 0⟩ ⟨[sampleEntry], 1⟩ [] [(7, staleSummary)]

/-- C10: when today has zero log entries the today's-summary request leaves
the `daily_summary` table exactly as it was (no zero row written, no old
row deleted), so a stale row for today is still what the per-date read
returns; removing the last of today's entries likewise leaves the stale row
in place. -/
theorem c10_stale_summary_frame (db : DB) (tbl : SummaryTable) (ts te today : ℕ)
    (h : entries_in_range db.entries ts te = []) :
    (get_todays_summary db tbl ts te today).1 = tbl ∧
    (get_todays_summary db tbl ts te today).2 = none ∧
    summary_lookup ((get_todays_summary db tbl ts te today).1) today =
      summary_lookup tbl today ∧
    (∀ (e : LogEntry) (nid : ℕ), ts ≤ e.timestamp → e.timestamp < te →
      (∀ x ∈ db.entries, x.id < e.id) →
      (remove_last_entry ⟨db.entries ++ [e], nid⟩ tbl ts te today).2.1 = tbl ∧
      ((remove_last_entry ⟨db.entries ++ [e], nid⟩ tbl ts te today).1).entries =
        db.entries) := by
  have h2 : summary_for_range db.entries ts te = none := by
    simp [summary_for_range, h]
  have hgot : get_todays_summary db tbl ts te today = (tbl, none) := by
    simp [get_todays_summary, h2]
  refine ⟨by rw [hgot], by rw [hgot], by rw [hgot], ?_⟩
  intro e nid h1e h2e hid
  have hgot2 : get_todays_summary (⟨db.entries, nid⟩ : DB) tbl ts te today = (tbl, none) := by
    simp [get_todays_summary, summary_for_range, h]
  rw [remove_after_append db tbl ts te today e nid h1e h2e hid]
  exact ⟨by simp [hgot2], rfl⟩

/-- Witness for C10: an empty log with a stale summary row for today; the
request leaves the row, and appending then removing an entry also leaves
it. -/
theorem c10_stale_summary_frame_witness :
    (get_todays_summary ⟨[], 0⟩ [(7, staleSummary)] 0 10 7).1 = [(7, staleSummary)] ∧
    summary_lookup ((get_todays_summary ⟨[], 0⟩ [(7, staleSummary)] 0 10 7).1) 7 =
      summary_lookup [(7, staleSummary)] 7 ∧
    (remove_last_entry ⟨[] ++ [sampleEntry], 1⟩ [(7, staleSummary)] 0 10 7).2.1 =
      [(7, staleSummary)] :=
  ⟨(c10_stale_summary_frame ⟨[], 0⟩ [(7, staleSummary)] 0 10 7 rfl).1,
   (c10_stale_summary_frame ⟨[], 0⟩ [(7, staleSummary)] 0 10 7 rfl).2.2.1,
   ((c10_stale_summary_frame ⟨[], 0⟩ [(7, staleSummary)] 0 10 7 rfl).2.2.2 sampleEntry 1
      (by decide) (by decide) (by intro x hx; simp at hx)).1⟩

end MTracker

namespace MTracker

set_option maxRecDepth 100000

/-- C8 (amended): a reply wrapped in a ```json-tagged fenced code block has
the fence stripped before parsing (shown on the banana-cake reply), and the
pipeline fails exactly when the cleaned reply is not valid JSON or a key
the taken path reads is absent (`food_item`/`quantity`/`quantity_unit`
always, the per-100g keys only on a cache miss); otherwise it succeeds with
the parsed draft. -/
theorem c8_fence_and_failure_modes (parse : Str → Option RawResponse)
    (reply : Str) (cache : Cache) :
    clean_response bananaReply = bananaBody ∧
    (resolve_food parse reply cache = none ↔
      parse (clean_response reply) = none ∨
      ∃ rd, parse (clean_response reply) = some rd ∧ missing_required_key rd cache) := by
  refine ⟨by decide, ?_⟩
  cases hp : parse (clean_response reply) with
  | none => simp [resolve_food, hp]
  | some rd =>
    obtain ⟨ofi, oq, oqu, oc, opr, ocb, oft⟩ := rd
    cases ofi with
    | none => simp [resolve_food, hp, missing_required_key]
    | some fi =>
      cases oq with
      | none => simp [resolve_food, hp, missing_required_key]
      | some q =>
        cases oqu with
        | none => simp [resolve_food, hp, missing_required_key]
        | some qu =>
          cases hcache : get_from_cache cache fi with
          | some p => simp [resolve_food, hp, hcache, missing_required_key]
          | none =>
            cases oc <;> cases opr <;> cases ocb <;> cases oft <;>
              simp [resolve_food, hp, hcache, missing_required_key]

/-- Counterexample for C8 as stated: the banana-cake JSON wrapped in a bare
(untagged) fenced code block is a reply wrapped in a fenced code block whose
body is valid JSON carrying every required key, yet the cleanup leaves the
fence in place and the extraction fails. -/
theorem c8_counterexample :
    plainFenceReply = fence_tok ++ ('\n' :: bananaBody) ++ ('\n' :: fence_tok) ∧
    bananaParse bananaBody = some bananaRaw ∧
    bananaRaw.food_item = some "banana cake" ∧
    bananaRaw.quantity = some 175 ∧
    bananaRaw.quantity_unit = some "g" ∧
    bananaRaw.calories_per_100g = some 300 ∧
    bananaRaw.protein_per_100g = some 4 ∧
    bananaRaw.carbs_per_100g = some 40 ∧
    bananaRaw.fat_per_100g = some 14 ∧
    clean_response plainFenceReply = plainFenceReply ∧
    bananaParse plainFenceReply = none ∧
    resolve_food bananaParse plainFenceReply [] = none := by
  have hcl : clean_response plainFenceReply = plainFenceReply := by decide
  have hno : bananaParse plainFenceReply = none := by
    simp [bananaParse]
    decide
  refine ⟨rfl, by simp [bananaParse], rfl, rfl, rfl, rfl, rfl, rfl, rfl, hcl, hno, ?_⟩
  simp [resolve_food, hcl, hno]

end MTracker
